import Mathlib

/-!
# EchoKey — shallow embedding and verification

A shallow embedding of the core of the EchoKey keystroke logger
(`src/echokey/src/keyboard_win.rs`, `keyboard.rs`, `logger.rs`,
`main.rs`, `config.rs`) together with theorems about the raw event
filter, the event classifier, the key resolver and the logger state
machine.

Modelling conventions:
* `Instant` is a `Nat` counting milliseconds; `Duration` comparisons
  become `Nat` comparisons, and `Instant::duration_since` /
  `Instant::elapsed` (which saturate at zero) become truncated `Nat`
  subtraction.
* The file system is an association list from path to file content;
  `BufWriter` writes followed by `flush` are modelled as direct
  appends to the file content (only durable content matters to the
  claims, never the buffer boundary).
* Calls to `Local::now()` inside one operation are modelled by an
  `Env` record carrying the current instant, the current calendar
  date, and the `%H:%M:%S`-formatted wall-clock time.
* The platform calls `GetKeyboardState` / `ToUnicode` are modelled by
  parameters: a success flag for the state read, the `i32` result of
  `ToUnicode` and the produced UTF-16 buffer.
-/

namespace EchoKey

/-- `KeyboardEvent` from `keyboard_win.rs` (identical variant set in
`keyboard.rs`). -/
inductive KeyboardEvent where
  | Character (c : Char)
  | Enter
  | CtrlEnter
  | Backspace
  | Paste
  | ManualSave
  | TogglePause
  | NewSegment
deriving DecidableEq, Repr

/-- `LastKeyEvent` from `keyboard_win.rs`: the dedup record guarded by
`LAST_KEY_EVENT`.  `time : Option Nat` is the optional `Instant` in
milliseconds. -/
structure LastKeyEvent where
  vk_code : Nat
  scan_code : Nat
  time : Option Nat
deriving DecidableEq, Repr

/-- `DEDUP_WINDOW_MS` from `keyboard_win.rs` (milliseconds). -/
def DEDUP_WINDOW_MS : Nat := 30

/-- `should_process_key` from `keyboard_win.rs`: the dedup decision.
Returns the accept decision together with the updated dedup record
(the record is updated only on accept). -/
def should_process_key (st : LastKeyEvent) (vk_code scan_code now : Nat) :
    Bool × LastKeyEvent :=
  let should_process : Bool :=
    match st.time with
    | some last_time =>
        if st.vk_code = vk_code ∧ st.scan_code = scan_code ∧
            now - last_time < DEDUP_WINDOW_MS then
          false
        else
          true
    | none => true
  if should_process then
    (true, { vk_code := vk_code, scan_code := scan_code, time := some now })
  else
    (false, st)

/-- The accept/drop decision of `low_level_keyboard_proc` from
`keyboard_win.rs`: injected notifications are dropped before anything
else; only key-down messages (`WM_KEYDOWN`/`WM_SYSKEYDOWN`) reach the
dedup check; an accepted key-down proceeds to `process_key_down`.
Returns the decision and the dedup record after the call. -/
def low_level_filter (injected is_key_down : Bool) (vk sc now : Nat)
    (st : LastKeyEvent) : Bool × LastKeyEvent :=
  if injected then (false, st)
  else if is_key_down then should_process_key st vk sc now
  else (false, st)

/-- Virtual key code `VK_RETURN`. -/
def VK_RETURN : Nat := 0x0D

/-- Virtual key code `VK_BACK`. -/
def VK_BACK : Nat := 0x08

/-- Rust `char::is_control`: the Unicode `Cc` category,
`U+0000..U+001F` and `U+007F..U+009F`. -/
def is_control (c : Char) : Bool :=
  c.toNat < 0x20 || (0x7F ≤ c.toNat && c.toNat ≤ 0x9F)

/-- Rust `char::from_u32`: `some` exactly on Unicode scalar values
(not a surrogate, at most `0x10FFFF`). -/
def char_from_u32 (n : Nat) : Option Char :=
  if n < 0xD800 ∨ (0xDFFF < n ∧ n < 0x110000) then some (Char.ofNat n)
  else none

/-- `vk_to_char` from `keyboard_win.rs`.  `kb_ok` models the success
of `GetKeyboardState`, `res` the `i32` returned by `ToUnicode`, `buf`
the produced UTF-16 buffer.  A character is produced only when the
state read succeeded and `ToUnicode` returned exactly `1`. -/
def vk_to_char (kb_ok : Bool) (res : Int) (buf : List Nat) : Option Char :=
  if !kb_ok then none
  else if res = 1 then
    match buf with
    | b0 :: _ => char_from_u32 b0
    | [] => none
  else none

/-- `process_key_down` from `keyboard_win.rs`: the event classifier.
Returns the list of events sent on the channel for one accepted
key-down (the sends happen in list order). -/
def process_key_down (vk : Nat) (ctrl shift kb_ok : Bool) (res : Int)
    (buf : List Nat) : List KeyboardEvent :=
  if vk = VK_RETURN then
    [if ctrl then KeyboardEvent.CtrlEnter else KeyboardEvent.Enter]
  else if vk = VK_BACK then [KeyboardEvent.Backspace]
  else if ctrl then
    if vk = 0x56 ∧ shift = false then [KeyboardEvent.Paste]
    else if vk = 0x53 ∧ shift = true then [KeyboardEvent.ManualSave]
    else if vk = 0x50 ∧ shift = true then [KeyboardEvent.TogglePause]
    else if vk = 0x4E ∧ shift = true then [KeyboardEvent.NewSegment]
    else []
  else
    match vk_to_char kb_ok res buf with
    | some c => if is_control c = false then [KeyboardEvent.Character c] else []
    | none => []

/-- UTF-8 byte length of a character list (Rust `str::len`). -/
def utf8_len (cs : List Char) : Nat :=
  cs.foldl (fun n c => n + c.utf8Size) 0

/-- The character-emission tail of the `rdev` backend's callback
(`keyboard.rs`, the block handling `event.name` on key press): a
single-byte name yields one `Character` when printable and ctrl is not
held; a longer non-empty name (e.g. an IME multi-character
confirmation) yields one `Character` per non-control code point when
ctrl is not held. -/
def rdev_char_events (nm : Option (List Char)) (ctrl : Bool) :
    List KeyboardEvent :=
  match nm with
  | none => []
  | some cs =>
    if utf8_len cs = 1 then
      match cs.head? with
      | some c =>
          if is_control c = false ∧ c ≠ '\r' ∧ c ≠ '\n' ∧ ctrl = false then
            [KeyboardEvent.Character c]
          else []
      | none => []
    else if cs.isEmpty = false ∧ ctrl = false then
      (cs.filter (fun c => is_control c = false)).map KeyboardEvent.Character
    else []

/-! ## Logger (`logger.rs`, `config.rs`, `main.rs`) -/

/-- A calendar date (`chrono::NaiveDate`). -/
structure Date where
  year : Nat
  month : Nat
  day : Nat
deriving DecidableEq, Repr

/-- Zero-pad to at least two digits (Rust `{:02}` / chrono `%m`, `%d`). -/
def pad2 (n : Nat) : String :=
  if n < 10 then "0" ++ toString n else toString n

/-- Zero-pad to at least four digits (chrono `%Y`). -/
def pad4 (n : Nat) : String :=
  if n < 10 then "000" ++ toString n
  else if n < 100 then "00" ++ toString n
  else if n < 1000 then "0" ++ toString n
  else toString n

/-- chrono format `%Y-%m-%d`. -/
def format_date (d : Date) : String :=
  pad4 d.year ++ "-" ++ pad2 d.month ++ "-" ++ pad2 d.day

/-- The file system visible to the logger: an association list from
file path to file content.  A missing entry is a file that does not
exist. -/
abbrev FS := List (String × String)

/-- Look a path up in the file system. -/
def fs_read (fs : FS) (p : String) : Option String :=
  match fs with
  | [] => none
  | (q, s) :: rest => if q = p then some s else fs_read rest p

/-- Set the content of a path (creating the entry if absent). -/
def fs_set (fs : FS) (p s : String) : FS :=
  match fs with
  | [] => [(p, s)]
  | (q, t) :: rest => if q = p then (q, s) :: rest else (q, t) :: fs_set rest p s

/-- Append bytes at the end of a file, creating it when absent
(append-only open mode). -/
def fs_append (fs : FS) (p s : String) : FS :=
  fs_set fs p ((fs_read fs p).getD "" ++ s)

/-- The wall clock observed during one logger operation: the `Instant`
in milliseconds, today's calendar date, and the `%H:%M:%S` rendering of
the current time. -/
structure Env where
  now : Nat
  today : Date
  hms : String
deriving DecidableEq, Repr

/-- `config::IDLE_TIMEOUT` (30 s), in milliseconds. -/
def IDLE_TIMEOUT_MS : Nat := 30000

/-- `Logger` from `logger.rs`, together with the file system it writes
to.  `writer = some p` models an open `BufWriter` on path `p`. -/
structure LoggerState where
  files : FS
  writer : Option String
  current_date : Option Date
  segment_number : Nat
  last_write_time : Option Nat
  current_line_empty : Bool
  paused : Bool
  header_written : Bool
deriving DecidableEq, Repr

/-- `Logger::new`: fresh state over a given file system. -/
def Logger.new (fs : FS) : LoggerState :=
  { files := fs, writer := none, current_date := none, segment_number := 0,
    last_write_time := none, current_line_empty := true, paused := false,
    header_written := false }

/-- `Logger::get_log_path`: `{date}.log` for segment 0,
`{date}_{NN}.log` (two-digit zero-padded) otherwise.  The constant log
directory prefix is omitted. -/
def get_log_path (seg : Nat) (d : Date) : String :=
  if seg = 0 then format_date d ++ ".log"
  else format_date d ++ "_" ++ pad2 seg ++ ".log"

/-- A run of `n` equals-signs (the banner characters of the header). -/
def eq_run (n : Nat) : String :=
  String.mk (List.replicate n '=')

/-- The header block written by `Logger::write_header_to` (four lines
and a blank line; both date and creation time are taken from
`Local::now()`).  The first banner is 18 equals-signs on either side
of ` EchoKey 日志 `, the second is 50 equals-signs. -/
def write_header_block (env : Env) : String :=
  eq_run 18 ++ " EchoKey 日志 " ++ eq_run 18 ++ "\n" ++
  "日期：" ++ format_date env.today ++ "\n" ++
  "创建时间：" ++ env.hms ++ "\n" ++
  eq_run 50 ++ "\n" ++ "\n"

/-- Append to the open writer, if any (`if let Some(ref mut writer)`). -/
def append_out (st : LoggerState) (s : String) : LoggerState :=
  match st.writer with
  | some p => { st with files := fs_append st.files p s }
  | none => st

/-- `Logger::open_or_create_file`: open the path for the current date
and segment in append mode (creating it when absent); write the header
iff the file has no content and `header_written` is still false; a
pre-existing non-empty file marks `header_written` without writing. -/
def open_or_create_file (env : Env) (st : LoggerState) : LoggerState :=
  let d := st.current_date.getD env.today
  let path := get_log_path st.segment_number d
  let file_exists := (fs_read st.files path).isSome
  let file_has_content := file_exists ∧ ((fs_read st.files path).getD "").length > 0
  let files0 := if file_exists then st.files else fs_set st.files path ""
  if file_has_content then
    { st with files := files0, header_written := true,
              writer := some path, current_line_empty := true }
  else if st.header_written = false then
    { st with files := fs_append files0 path (write_header_block env),
              header_written := true,
              writer := some path, current_line_empty := true }
  else
    { st with files := files0,
              writer := some path, current_line_empty := true }

/-- `Logger::ensure_file`: on a date change reset the segment to 0,
clear `header_written`, drop the old writer and open the new date's
file; otherwise open the file only if no writer is live. -/
def ensure_file (env : Env) (st : LoggerState) : LoggerState :=
  if st.current_date ≠ some env.today then
    open_or_create_file env
      { st with current_date := some env.today, segment_number := 0,
                header_written := false, writer := none }
  else if st.writer = none then open_or_create_file env st
  else st

/-- `Logger::write_timestamp`: `[HH:MM:SS] ` on the open writer. -/
def write_timestamp (env : Env) (st : LoggerState) : LoggerState :=
  append_out st ("[" ++ env.hms ++ "] ")

/-- `Logger::should_add_timestamp`: the line is empty, or more than
`IDLE_TIMEOUT` elapsed since the last write. -/
def should_add_timestamp (st : LoggerState) (now : Nat) : Bool :=
  if st.current_line_empty then true
  else
    match st.last_write_time with
    | some t => if now - t > IDLE_TIMEOUT_MS then true else false
    | none => false

/-- `Logger::write_text`. -/
def write_text (env : Env) (text : String) (st : LoggerState) : LoggerState :=
  if st.paused then st
  else
    let st1 := ensure_file env st
    let st2 :=
      if should_add_timestamp st1 env.now then
        let sta := if st1.current_line_empty = false then append_out st1 "\n" else st1
        let stb := write_timestamp env sta
        { stb with current_line_empty := false }
      else st1
    let st3 := append_out st2 text
    { st3 with last_write_time := some env.now }

/-- `Logger::handle_enter`. -/
def handle_enter (env : Env) (st : LoggerState) : LoggerState :=
  if st.paused then st
  else
    let st1 := ensure_file env st
    let st2 := append_out st1 "\n"
    { st2 with current_line_empty := true, last_write_time := some env.now }

/-- `Logger::handle_ctrl_enter`: a line break, then ten spaces of
indentation; `current_line_empty` is not assigned. -/
def handle_ctrl_enter (env : Env) (st : LoggerState) : LoggerState :=
  if st.paused then st
  else
    let st1 := ensure_file env st
    let st2 := append_out (append_out st1 "\n") "          "
    { st2 with last_write_time := some env.now }

/-- `Logger::write_paste`. -/
def write_paste (env : Env) (content : String) (st : LoggerState) : LoggerState :=
  if st.paused then st
  else
    let st1 := ensure_file env st
    let st2 := if st1.current_line_empty = false then append_out st1 "\n" else st1
    let st3 := append_out st2 ("[" ++ env.hms ++ "] [粘贴] " ++ content ++ "\n")
    { st3 with current_line_empty := true, last_write_time := some env.now }

/-- `Logger::write_manual_save`. -/
def write_manual_save (env : Env) (content : String) (st : LoggerState) :
    LoggerState :=
  if st.paused then st
  else
    let st1 := ensure_file env st
    let st2 := if st1.current_line_empty = false then append_out st1 "\n" else st1
    let st3 := append_out st2 ("[" ++ env.hms ++ "] [手动保存] " ++ content ++ "\n")
    { st3 with current_line_empty := true, last_write_time := some env.now }

/-- `Logger::new_segment`: flush and close the writer, increment the
segment number, clear `header_written`, open the next file.  There is
no paused check. -/
def new_segment (env : Env) (st : LoggerState) : LoggerState :=
  open_or_create_file env
    { st with writer := none, segment_number := st.segment_number + 1,
              header_written := false }

/-- `Logger::pause`: writes the pause marker (its own writes are not
gated by the flag it just set). -/
def Logger.pause (env : Env) (st : LoggerState) : LoggerState :=
  if st.paused = false then
    let st1 := ensure_file env { st with paused := true }
    let st2 := if st1.current_line_empty = false then append_out st1 "\n" else st1
    let st3 := append_out st2 ("[" ++ env.hms ++ "] --- 暂停记录 ---" ++ "\n")
    { st3 with current_line_empty := true }
  else st

/-- `Logger::resume`. -/
def Logger.resume (env : Env) (st : LoggerState) : LoggerState :=
  if st.paused then
    let st1 := ensure_file env { st with paused := false }
    let st2 := append_out st1 ("[" ++ env.hms ++ "] --- 恢复记录 ---" ++ "\n")
    { st2 with current_line_empty := true }
  else st

/-- `Logger::toggle_pause`. -/
def toggle_pause (env : Env) (st : LoggerState) : LoggerState :=
  if st.paused then Logger.resume env st else Logger.pause env st

/-- `AppState` from `main.rs` (the logic thread's view). -/
structure AppState where
  logger : LoggerState
  paused : Bool
  char_count : Nat
deriving DecidableEq, Repr

/-- `handle_keyboard_event` from `main.rs`.  `clip` models
`clipboard::get_text()`.  A paused state swallows every event except
`TogglePause` before any logger call or clipboard read. -/
def handle_keyboard_event (env : Env) (clip : Option String)
    (ev : KeyboardEvent) (st : AppState) : AppState :=
  if st.paused = true ∧ ev ≠ KeyboardEvent.TogglePause then st
  else
    match ev with
    | KeyboardEvent.Character c =>
        { st with logger := write_text env (String.singleton c) st.logger,
                  char_count := st.char_count + 1 }
    | KeyboardEvent.Enter => { st with logger := handle_enter env st.logger }
    | KeyboardEvent.CtrlEnter =>
        { st with logger := handle_ctrl_enter env st.logger }
    | KeyboardEvent.Backspace =>
        { st with logger := write_text env "⌫" st.logger }
    | KeyboardEvent.Paste =>
        match clip with
        | some content =>
            if content.isEmpty = false then
              { st with logger := write_paste env content st.logger,
                        char_count := st.char_count + content.length }
            else st
        | none => st
    | KeyboardEvent.ManualSave =>
        match clip with
        | some content =>
            if content.isEmpty = false then
              { st with logger := write_manual_save env content st.logger }
            else st
        | none => st
    | KeyboardEvent.TogglePause =>
        let lg := toggle_pause env st.logger
        { st with logger := lg, paused := lg.paused }
    | KeyboardEvent.NewSegment =>
        { st with logger := new_segment env st.logger }

/-! ## File-system helper lemmas -/

theorem fs_read_set_self (fs : FS) (p s : String) :
    fs_read (fs_set fs p s) p = some s := by
  induction fs with
  | nil => simp [fs_set, fs_read]
  | cons hd tl ih =>
      obtain ⟨q, t⟩ := hd
      by_cases h : q = p
      · simp [fs_set, fs_read, h]
      · simp [fs_set, fs_read, h, ih]

theorem fs_read_set_ne (fs : FS) (p q s : String) (h : q ≠ p) :
    fs_read (fs_set fs p s) q = fs_read fs q := by
  induction fs with
  | nil => simp [fs_set, fs_read, Ne.symm h]
  | cons hd tl ih =>
      obtain ⟨r, t⟩ := hd
      by_cases hr : r = p
      · subst hr
        simp [fs_set, fs_read, Ne.symm h]
      · simp [fs_set, fs_read, hr, ih]

theorem fs_set_set (fs : FS) (p s t : String) :
    fs_set (fs_set fs p s) p t = fs_set fs p t := by
  induction fs with
  | nil => simp [fs_set]
  | cons hd tl ih =>
      obtain ⟨q, u⟩ := hd
      by_cases h : q = p <;> simp [fs_set, h, ih]

theorem fs_read_append_self (fs : FS) (p s : String) :
    fs_read (fs_append fs p s) p = some ((fs_read fs p).getD "" ++ s) := by
  simp [fs_append, fs_read_set_self]

theorem fs_read_append_ne (fs : FS) (p q s : String) (h : q ≠ p) :
    fs_read (fs_append fs p s) q = fs_read fs q := by
  simp [fs_append, fs_read_set_ne _ _ _ _ h]

theorem fs_append_append (fs : FS) (p a b : String) :
    fs_append (fs_append fs p a) p b = fs_append fs p (a ++ b) := by
  simp [fs_append, fs_read_set_self, fs_set_set, String.append_assoc]

/-! ## Logger helper lemmas -/

/-- When the date matches and a writer is open, `ensure_file` is the
identity. -/
theorem ensure_file_steady (env : Env) (st : LoggerState) (p : String)
    (hd : st.current_date = some env.today) (hw : st.writer = some p) :
    ensure_file env st = st := by
  simp [ensure_file, hd, hw]

/-- `append_out` on an open writer appends to its file. -/
theorem append_out_open (st : LoggerState) (p s : String)
    (hw : st.writer = some p) :
    append_out st s = { st with files := fs_append st.files p s } := by
  simp [append_out, hw]

/-! ## Claims about the raw event filter and the classifier -/

/-- C1: the Raw Event Filter's accept/drop decision.  An injected
key-down is never accepted (and the dedup record is untouched); a
notification with the same `(keyCode, scanCode)` pair as the last
accepted one, strictly within the 30 ms window, is dropped without
updating the record; every other key-down is accepted and the record
becomes `(keyCode, scanCode, now)`.  Consequently of two identical
notifications within the window only the first is accepted, and
delivered at least one window apart both are accepted. -/
theorem C1_raw_event_filter (st : LastKeyEvent) (vk sc now now2 : Nat) :
    (∀ down : Bool, low_level_filter true down vk sc now st = (false, st)) ∧
    (∀ t0, st.time = some t0 → st.vk_code = vk → st.scan_code = sc →
        now - t0 < DEDUP_WINDOW_MS →
        low_level_filter false true vk sc now st = (false, st)) ∧
    ((st.time = none ∨ st.vk_code ≠ vk ∨ st.scan_code ≠ sc ∨
        (∀ t0, st.time = some t0 → DEDUP_WINDOW_MS ≤ now - t0)) →
        low_level_filter false true vk sc now st =
          (true, { vk_code := vk, scan_code := sc, time := some now })) ∧
    (now2 - now < DEDUP_WINDOW_MS →
        low_level_filter false true vk sc now2
            { vk_code := vk, scan_code := sc, time := some now } =
          (false, { vk_code := vk, scan_code := sc, time := some now })) ∧
    (DEDUP_WINDOW_MS ≤ now2 - now →
        low_level_filter false true vk sc now2
            { vk_code := vk, scan_code := sc, time := some now } =
          (true, { vk_code := vk, scan_code := sc, time := some now2 })) := by
  refine ⟨?_, ?_, ?_, ?_, ?_⟩
  · intro down
    simp [low_level_filter]
  · intro t0 ht hv hs hlt
    simp [low_level_filter, should_process_key, ht, hv, hs, hlt]
  · intro h
    rcases h with h | h | h | h
    · simp [low_level_filter, should_process_key, h]
    · cases htime : st.time with
      | none => simp [low_level_filter, should_process_key, htime]
      | some t0 => simp [low_level_filter, should_process_key, htime, h]
    · cases htime : st.time with
      | none => simp [low_level_filter, should_process_key, htime]
      | some t0 => simp [low_level_filter, should_process_key, htime, h]
    · cases htime : st.time with
      | none => simp [low_level_filter, should_process_key, htime]
      | some t0 =>
          have := h t0 htime
          simp [low_level_filter, should_process_key, htime, Nat.not_lt.mpr this]
  · intro hlt
    simp [low_level_filter, should_process_key, hlt]
  · intro hge
    simp [low_level_filter, should_process_key, Nat.not_lt.mpr hge]

/-- C1 witness: concrete runs of the filter — an injected key-down is
dropped; a repeat of the last accepted pair 10 ms later is dropped
without touching the record; the same pair 30 ms later is accepted. -/
theorem C1_raw_event_filter_witness :
    low_level_filter true true 65 30 100 ⟨0, 0, none⟩ = (false, ⟨0, 0, none⟩) ∧
    low_level_filter false true 65 30 110 ⟨65, 30, some 100⟩ =
      (false, ⟨65, 30, some 100⟩) ∧
    low_level_filter false true 65 30 130 ⟨65, 30, some 100⟩ =
      (true, ⟨65, 30, some 130⟩) := by
  refine ⟨(C1_raw_event_filter ⟨0, 0, none⟩ 65 30 100 0).1 true,
    (C1_raw_event_filter ⟨65, 30, some 100⟩ 65 30 110 0).2.1 100 rfl rfl rfl
      (by decide),
    ?_⟩
  have h := (C1_raw_event_filter ⟨65, 30, some 100⟩ 65 30 130 0).2.2.1
  exact h (Or.inr (Or.inr (Or.inr (fun t0 ht => by
    cases ht
    decide))))

/-- C2: the Event Classifier's first-match-wins decision table on an
accepted key-down: Return+ctrl ⇒ CtrlEnter; Return ⇒ Enter; Backspace
⇒ Backspace; Ctrl+V (no shift) ⇒ Paste; Ctrl+Shift+S ⇒ ManualSave;
Ctrl+Shift+P ⇒ TogglePause; Ctrl+Shift+N ⇒ NewSegment; any other key
with ctrl held emits nothing; otherwise a resolved non-control
character `c` emits `Character c`; anything else emits nothing. -/
theorem C2_classifier (vk : Nat) (ctrl shift kb_ok : Bool) (res : Int)
    (buf : List Nat) (c : Char) :
    (process_key_down VK_RETURN true shift kb_ok res buf =
        [KeyboardEvent.CtrlEnter]) ∧
    (process_key_down VK_RETURN false shift kb_ok res buf =
        [KeyboardEvent.Enter]) ∧
    (process_key_down VK_BACK ctrl shift kb_ok res buf =
        [KeyboardEvent.Backspace]) ∧
    (process_key_down 0x56 true false kb_ok res buf = [KeyboardEvent.Paste]) ∧
    (process_key_down 0x53 true true kb_ok res buf =
        [KeyboardEvent.ManualSave]) ∧
    (process_key_down 0x50 true true kb_ok res buf =
        [KeyboardEvent.TogglePause]) ∧
    (process_key_down 0x4E true true kb_ok res buf =
        [KeyboardEvent.NewSegment]) ∧
    (vk ≠ VK_RETURN → vk ≠ VK_BACK →
      (vk = 0x56 → shift = true) → (vk = 0x53 → shift = false) →
      (vk = 0x50 → shift = false) → (vk = 0x4E → shift = false) →
      process_key_down vk true shift kb_ok res buf = []) ∧
    (vk ≠ VK_RETURN → vk ≠ VK_BACK → vk_to_char kb_ok res buf = some c →
      is_control c = false →
      process_key_down vk false shift kb_ok res buf =
        [KeyboardEvent.Character c]) ∧
    (vk ≠ VK_RETURN → vk ≠ VK_BACK → vk_to_char kb_ok res buf = none →
      process_key_down vk false shift kb_ok res buf = []) ∧
    (vk ≠ VK_RETURN → vk ≠ VK_BACK → vk_to_char kb_ok res buf = some c →
      is_control c = true →
      process_key_down vk false shift kb_ok res buf = []) := by
  refine ⟨by simp [process_key_down, VK_RETURN],
    by simp [process_key_down, VK_RETURN],
    by simp [process_key_down, VK_RETURN, VK_BACK],
    by simp [process_key_down, VK_RETURN, VK_BACK],
    by simp [process_key_down, VK_RETURN, VK_BACK],
    by simp [process_key_down, VK_RETURN, VK_BACK],
    by simp [process_key_down, VK_RETURN, VK_BACK],
    ?_, ?_, ?_, ?_⟩
  · intro hret hback hv hs hp hn
    have hv2 : ¬(vk = 0x56 ∧ shift = false) := by
      rintro ⟨h1, h2⟩; simp [hv h1] at h2
    have hs2 : ¬(vk = 0x53 ∧ shift = true) := by
      rintro ⟨h1, h2⟩; simp [hs h1] at h2
    have hp2 : ¬(vk = 0x50 ∧ shift = true) := by
      rintro ⟨h1, h2⟩; simp [hp h1] at h2
    have hn2 : ¬(vk = 0x4E ∧ shift = true) := by
      rintro ⟨h1, h2⟩; simp [hn h1] at h2
    simp [process_key_down, hret, hback, hv2, hs2, hp2, hn2]
  · intro hret hback hres hc
    simp [process_key_down, hret, hback, hres, hc]
  · intro hret hback hres
    simp [process_key_down, hret, hback, hres]
  · intro hret hback hres hc
    simp [process_key_down, hret, hback, hres, hc]

/-- C2 witness: concrete classifications — Ctrl+Shift+V (suppressed),
a key-down resolving to `a` with ctrl not held (one `Character`), and
the seven explicit rows at concrete inputs. -/
theorem C2_classifier_witness :
    process_key_down 0x56 true true true 1 [0x61] = [] ∧
    process_key_down 0x41 false false true 1 [0x61] =
      [KeyboardEvent.Character 'a'] ∧
    process_key_down 0x41 false false true 0 [] = [] := by
  have h := C2_classifier 0x56 true true true 1 [0x61] 'a'
  have h2 := C2_classifier 0x41 false false true 1 [0x61] 'a'
  refine ⟨h.2.2.2.2.2.2.2.1 (by decide) (by decide)
      (fun _ => rfl) (by decide) (by decide) (by decide),
    h2.2.2.2.2.2.2.2.2.1 (by decide) (by decide) (by decide) (by decide),
    (C2_classifier 0x41 false false true 0 [] 'a').2.2.2.2.2.2.2.2.2.1
      (by decide) (by decide) (by decide)⟩

/-- C9 counterexample: in the Windows backend a key-down whose
`ToUnicode` call resolves two code points (an IME two-character
confirmation, result `2`) produces no `Character` events at all —
`vk_to_char` requires the result to be exactly `1` — refuting "one
`Character(c)` event is emitted for each resolved code point". -/
theorem C9_counterexample :
    vk_to_char true 2 [0x597D, 0x4E86] = none ∧
    process_key_down 0x41 false false true 2 [0x597D, 0x4E86] = [] ∧
    process_key_down 0x41 false false true 2 [0x597D, 0x4E86] ≠
      [KeyboardEvent.Character '好', KeyboardEvent.Character '了'] := by
  refine ⟨rfl, by decide, by decide⟩

/-- C9 (amended): the Windows backend (`keyboard_win.rs`) resolves at
most one character per key-down — `vk_to_char` returns `none` whenever
`ToUnicode` does not report exactly one code unit, so multi-character
IME confirmations emit no events; a single resolved non-control
character with ctrl not held emits exactly one `Character` event.
Only the `rdev` backend (`keyboard.rs`) emits one `Character` per
non-control resolved code point of a multi-character confirmation. -/
theorem C9_key_resolution (vk : Nat) (shift kb_ok : Bool) (res : Int)
    (buf : List Nat) (c : Char) (cs : List Char) :
    (res ≠ 1 → vk_to_char kb_ok res buf = none) ∧
    (vk ≠ VK_RETURN → vk ≠ VK_BACK → res ≠ 1 →
        process_key_down vk false shift kb_ok res buf = []) ∧
    (vk_to_char kb_ok res buf = some c → is_control c = false →
        vk ≠ VK_RETURN → vk ≠ VK_BACK →
        process_key_down vk false shift kb_ok res buf =
          [KeyboardEvent.Character c]) ∧
    (utf8_len cs ≠ 1 → cs ≠ [] →
        rdev_char_events (some cs) false =
          (cs.filter (fun x => is_control x = false)).map
            KeyboardEvent.Character) := by
  refine ⟨?_, ?_, ?_, ?_⟩
  · intro hres
    cases kb_ok <;> simp [vk_to_char, hres]
  · intro hret hback hres
    have : vk_to_char kb_ok res buf = none := by
      cases kb_ok <;> simp [vk_to_char, hres]
    simp [process_key_down, hret, hback, this]
  · intro hsome hc hret hback
    simp [process_key_down, hret, hback, hsome, hc]
  · intro hlen hne
    simp [rdev_char_events, hlen, hne]

/-- C9 witness: a two-code-point `ToUnicode` result gives no events
in the Windows backend; a one-code-point result gives one `Character`;
the rdev backend turns the confirmed name `好了` into two `Character`
events. -/
theorem C9_key_resolution_witness :
    process_key_down 0x41 false false true 2 [0x597D, 0x4E86] = [] ∧
    process_key_down 0x41 false false true 1 [0x61] =
      [KeyboardEvent.Character 'a'] ∧
    rdev_char_events (some ['好', '了']) false =
      [KeyboardEvent.Character '好', KeyboardEvent.Character '了'] := by
  have h := C9_key_resolution 0x41 false true 2 [0x597D, 0x4E86] 'a' ['好', '了']
  refine ⟨h.2.1 (by decide) (by decide) (by decide),
    (C9_key_resolution 0x41 false true 1 [0x61] 'a' []).2.2.1
      (by decide) (by decide) (by decide) (by decide),
    ?_⟩
  have h4 := h.2.2.2 (by decide) (by decide)
  rw [h4]
  decide

/-! ## Claims about the logger -/

/-- C3 counterexample: two `Character` writes separated by exactly
30 s (`≥ 30 s` as the claim reads).  `should_add_timestamp` requires
`elapsed > IDLE_TIMEOUT` strictly, `30000 - 0 > 30000` is false, so
the second write receives no timestamp prefix: the file reads
`[10:00:00] AB`, not two separately timestamped writes. -/
theorem C3_counterexample :
    fs_read (write_text { now := 30000, today := ⟨2026, 1, 2⟩, hms := "10:00:30" }
        "B"
        (write_text { now := 0, today := ⟨2026, 1, 2⟩, hms := "10:00:00" } "A"
          { files := [("2026-01-02.log", "")],
            writer := some "2026-01-02.log",
            current_date := some ⟨2026, 1, 2⟩, segment_number := 0,
            last_write_time := none, current_line_empty := true,
            paused := false, header_written := true })).files
      "2026-01-02.log" = some "[10:00:00] AB" := by
  decide

/-- C3 (amended): for a text write while not paused (file open for
today): a timestamp is due iff the line is empty or strictly more than
30 s elapsed since the last write; when due, a line break is emitted
first (unless the line is already empty) followed by `[HH:MM:SS] ` and
`lineIsEmpty` becomes false; the text is then appended verbatim and
`lastWriteInstant` is updated.  Hence two `Character` writes separated
by strictly more than 30 s each receive their own timestamp prefix
even without an intervening `Enter`. -/
theorem C3_write_text (env : Env) (text : String) (st : LoggerState)
    (p : String) (hp : st.paused = false) (hw : st.writer = some p)
    (hd : st.current_date = some env.today) :
    (should_add_timestamp st env.now = true →
        write_text env text st =
          { st with
              files := fs_append st.files p
                ((if st.current_line_empty then "" else "\n") ++
                  ("[" ++ env.hms ++ "] " ++ text)),
              current_line_empty := false,
              last_write_time := some env.now }) ∧
    (should_add_timestamp st env.now = false →
        write_text env text st =
          { st with files := fs_append st.files p text,
                    last_write_time := some env.now }) ∧
    (should_add_timestamp st env.now = true ↔
        (st.current_line_empty = true ∨
          ∃ t, st.last_write_time = some t ∧ env.now - t > IDLE_TIMEOUT_MS)) ∧
    ((write_text env text st).current_line_empty = false) ∧
    (∀ now2, should_add_timestamp (write_text env text st) now2 = true ↔
        now2 - env.now > IDLE_TIMEOUT_MS) := by
  obtain ⟨files, writer, cdate, seg, lwt, cle, pausedf, hwr⟩ := st
  simp only at hp hw hd
  subst hp hw hd
  have he := ensure_file_steady env
    ⟨files, some p, some env.today, seg, lwt, cle, false, hwr⟩ p rfl rfl
  refine ⟨?_, ?_, ?_, ?_, ?_⟩
  · intro h
    cases cle with
    | true =>
        simp [write_text, he, h, write_timestamp, append_out, fs_append_append]
    | false =>
        simp [write_text, he, h, write_timestamp, append_out, fs_append_append,
          String.append_assoc]
  · intro h
    have hcle : cle = false := by
      by_contra hc
      simp [should_add_timestamp, eq_true_of_ne_false hc] at h
    subst hcle
    simp [write_text, he, h, append_out]
  · cases cle with
    | true => simp [should_add_timestamp]
    | false =>
        cases lwt with
        | none => simp [should_add_timestamp]
        | some t =>
            by_cases ht : env.now - t > IDLE_TIMEOUT_MS <;>
              simp [should_add_timestamp, ht]
  · cases cle with
    | true =>
        simp [write_text, he, should_add_timestamp, write_timestamp, append_out]
    | false =>
        cases lwt with
        | none =>
            simp [write_text, he, should_add_timestamp, write_timestamp,
              append_out]
        | some t =>
            by_cases ht : env.now - t > IDLE_TIMEOUT_MS <;>
              simp [write_text, he, should_add_timestamp, write_timestamp,
                append_out, ht]
  · intro now2
    cases cle with
    | true =>
        by_cases ht2 : now2 - env.now > IDLE_TIMEOUT_MS <;>
          simp [write_text, he, should_add_timestamp, write_timestamp,
            append_out, ht2]
    | false =>
        cases lwt with
        | none =>
            by_cases ht2 : now2 - env.now > IDLE_TIMEOUT_MS <;>
              simp [write_text, he, should_add_timestamp, write_timestamp,
                append_out, ht2]
        | some t =>
            by_cases ht : env.now - t > IDLE_TIMEOUT_MS <;>
              by_cases ht2 : now2 - env.now > IDLE_TIMEOUT_MS <;>
                simp [write_text, he, should_add_timestamp, write_timestamp,
                  append_out, ht, ht2]

/-- C3 witness: with the line non-empty and a last write at 0 ms, a
write at 31000 ms (strictly beyond the timeout) starts a fresh
timestamped line. -/
theorem C3_write_text_witness :
    write_text { now := 31000, today := ⟨2026, 1, 2⟩, hms := "10:00:31" } "B"
        { files := [("2026-01-02.log", "[10:00:00] A")],
          writer := some "2026-01-02.log",
          current_date := some ⟨2026, 1, 2⟩, segment_number := 0,
          last_write_time := some 0, current_line_empty := false,
          paused := false, header_written := true } =
      { files := [("2026-01-02.log",
          "[10:00:00] A" ++ ("\n" ++ ("[" ++ "10:00:31" ++ "] " ++ "B")))],
        writer := some "2026-01-02.log",
        current_date := some ⟨2026, 1, 2⟩, segment_number := 0,
        last_write_time := some 31000, current_line_empty := false,
        paused := false, header_written := true } := by
  have h := (C3_write_text { now := 31000, today := ⟨2026, 1, 2⟩, hms := "10:00:31" }
    "B"
    { files := [("2026-01-02.log", "[10:00:00] A")],
      writer := some "2026-01-02.log",
      current_date := some ⟨2026, 1, 2⟩, segment_number := 0,
      last_write_time := some 0, current_line_empty := false,
      paused := false, header_written := true }
    "2026-01-02.log" rfl rfl rfl).1 (by decide)
  rw [h]
  decide

/-! ## String and open-file helper lemmas -/

theorem string_data_append (s t : String) : (s ++ t).data = s.data ++ t.data :=
  rfl

theorem string_empty_append (s : String) : "" ++ s = s := by
  cases s
  rfl

theorem string_append_left_cancel (s a b : String) (h : s ++ a = s ++ b) :
    a = b := by
  have h2 : s.data ++ a.data = s.data ++ b.data := congrArg String.data h
  have h3 : a.data = b.data := List.append_cancel_left h2
  cases a
  cases b
  exact congrArg String.mk h3

theorem string_length_append (s t : String) :
    (s ++ t).length = s.length + t.length := by
  show (s ++ t).data.length = s.data.length + t.data.length
  rw [string_data_append, List.length_append]

theorem string_ne_empty_iff (s : String) : s ≠ "" ↔ 0 < s.length := by
  cases s with
  | mk l =>
      cases l with
      | nil =>
          exact ⟨fun h => absurd (by decide) h, fun h => absurd h (by decide)⟩
      | cons c cs =>
          refine ⟨fun _ => ?_, fun _ h => ?_⟩
          · simp [String.length]
          · have h2 : c :: cs = ([] : List Char) := congrArg String.data h
            exact absurd h2 (by simp)

theorem open_or_create_file_paused (env : Env) (st : LoggerState) :
    (open_or_create_file env st).paused = st.paused := by
  simp only [open_or_create_file]
  split
  · rfl
  · split <;> rfl

theorem append_out_paused (st : LoggerState) (s : String) :
    (append_out st s).paused = st.paused := by
  cases hw : st.writer <;> simp [append_out, hw]

theorem ensure_file_paused (env : Env) (st : LoggerState) :
    (ensure_file env st).paused = st.paused := by
  simp only [ensure_file]
  split
  · rw [open_or_create_file_paused]
  · split
    · rw [open_or_create_file_paused]
    · rfl

/-- Full characterisation of `open_or_create_file` when the date is
set and the header is not yet written (the situation after a date
change or a new segment). -/
theorem open_or_create_file_spec (env : Env) (st : LoggerState) (d : Date)
    (hd : st.current_date = some d) (hh : st.header_written = false) :
    (open_or_create_file env st).writer =
        some (get_log_path st.segment_number d) ∧
    (open_or_create_file env st).segment_number = st.segment_number ∧
    (open_or_create_file env st).current_date = some d ∧
    (open_or_create_file env st).paused = st.paused ∧
    (open_or_create_file env st).header_written = true ∧
    (open_or_create_file env st).current_line_empty = true ∧
    (open_or_create_file env st).last_write_time = st.last_write_time ∧
    ((fs_read st.files (get_log_path st.segment_number d)).getD "" = "" →
        fs_read (open_or_create_file env st).files
            (get_log_path st.segment_number d) =
          some (write_header_block env)) ∧
    (∀ s, fs_read st.files (get_log_path st.segment_number d) = some s →
        s ≠ "" →
        fs_read (open_or_create_file env st).files
            (get_log_path st.segment_number d) = some s) ∧
    (∀ q, q ≠ get_log_path st.segment_number d →
        fs_read (open_or_create_file env st).files q = fs_read st.files q) := by
  obtain ⟨files, wr, cdate, seg, lwt, cle, ps, hwr⟩ := st
  simp only at hd hh
  subst hd hh
  cases hres : fs_read files (get_log_path seg d) with
  | none =>
      simp only [open_or_create_file, Option.getD_some, hres, Option.isSome_none,
        Option.getD_none]
      refine ⟨?_, ?_, ?_, ?_, ?_, ?_, ?_, ?_, ?_, ?_⟩ <;>
        simp [hres, fs_read_append_self, fs_read_set_self, string_empty_append]
      · intro q hq
        rw [fs_read_append_ne _ _ _ _ hq, fs_read_set_ne _ _ _ _ hq]
  | some s =>
      by_cases hs : s = ""
      · subst hs
        simp only [open_or_create_file, hres, Option.getD_some, Option.isSome_some]
        refine ⟨?_, ?_, ?_, ?_, ?_, ?_, ?_, ?_, ?_, ?_⟩ <;>
          simp [hres, String.length, fs_read_append_self, string_empty_append]
        intro q hq
        rw [fs_read_append_ne _ _ _ _ hq]
      · have hlen : 0 < s.length := (string_ne_empty_iff s).mp hs
        simp only [open_or_create_file, hres, Option.getD_some, Option.isSome_some]
        refine ⟨?_, ?_, ?_, ?_, ?_, ?_, ?_, ?_, ?_, ?_⟩ <;>
          simp [hres, hlen, hs]

/-- `Logger::resume` on a paused logger clears the paused flag. -/
theorem resume_unpauses (env : Env) (st : LoggerState) (h : st.paused = true) :
    (Logger.resume env st).paused = false := by
  obtain ⟨files, wr, cdate, seg, lwt, cle, ps, hwr⟩ := st
  simp only at h
  subst h
  simp [Logger.resume, append_out_paused, ensure_file_paused]

/-- C4: while the logger is paused, text, Enter, CtrlEnter, Paste and
ManualSave writes are silently discarded — the whole state, including
the file system, the open writer, `lineIsEmpty` and
`lastWriteInstant`, is unchanged — both at the `Logger` level and at
the `main.rs` event-dispatch level; `TogglePause` itself is still
processed (it resumes). -/
theorem C4_paused_noop (env : Env) (st : LoggerState)
    (text content content2 : String) (h : st.paused = true) :
    write_text env text st = st ∧
    handle_enter env st = st ∧
    handle_ctrl_enter env st = st ∧
    write_paste env content st = st ∧
    write_manual_save env content2 st = st ∧
    (toggle_pause env st).paused = false ∧
    (∀ (clip : Option String) (ev : KeyboardEvent) (n : Nat),
        ev ≠ KeyboardEvent.TogglePause →
        handle_keyboard_event env clip ev ⟨st, true, n⟩ = ⟨st, true, n⟩) := by
  refine ⟨by simp [write_text, h], by simp [handle_enter, h],
    by simp [handle_ctrl_enter, h], by simp [write_paste, h],
    by simp [write_manual_save, h], ?_, ?_⟩
  · simp only [toggle_pause, h, if_true]
    exact resume_unpauses env st h
  · intro clip ev n hev
    simp [handle_keyboard_event, hev]

/-- C4 witness: a concrete paused logger swallows a text write and an
`Enter` event without any change. -/
theorem C4_paused_noop_witness :
    write_text { now := 5, today := ⟨2026, 1, 2⟩, hms := "10:00:00" } "a"
        { files := [("2026-01-02.log", "x")], writer := some "2026-01-02.log",
          current_date := some ⟨2026, 1, 2⟩, segment_number := 0,
          last_write_time := some 0, current_line_empty := false,
          paused := true, header_written := true } =
      { files := [("2026-01-02.log", "x")], writer := some "2026-01-02.log",
        current_date := some ⟨2026, 1, 2⟩, segment_number := 0,
        last_write_time := some 0, current_line_empty := false,
        paused := true, header_written := true } ∧
    handle_keyboard_event { now := 5, today := ⟨2026, 1, 2⟩, hms := "10:00:00" }
        none KeyboardEvent.Enter
        ⟨{ files := [("2026-01-02.log", "x")], writer := some "2026-01-02.log",
           current_date := some ⟨2026, 1, 2⟩, segment_number := 0,
           last_write_time := some 0, current_line_empty := false,
           paused := true, header_written := true }, true, 0⟩ =
      ⟨{ files := [("2026-01-02.log", "x")], writer := some "2026-01-02.log",
         current_date := some ⟨2026, 1, 2⟩, segment_number := 0,
         last_write_time := some 0, current_line_empty := false,
         paused := true, header_written := true }, true, 0⟩ := by
  refine ⟨(C4_paused_noop _ _ "a" "x" "y" rfl).1,
    (C4_paused_noop { now := 5, today := ⟨2026, 1, 2⟩, hms := "10:00:00" }
        _ "a" "x" "y" rfl).2.2.2.2.2.2 none KeyboardEvent.Enter 0 (by decide)⟩

/-- C5 counterexample: `handle_ctrl_enter` does not assign
`current_line_empty` at all.  Starting from a non-paused state whose
line is empty (e.g. right after `Enter`), CtrlEnter leaves
`lineIsEmpty` **true** — the claim says it is left false — and the
character written immediately afterwards does get a fresh timestamp,
inserted right after the indentation. -/
theorem C5_counterexample :
    (handle_ctrl_enter { now := 1000, today := ⟨2026, 1, 2⟩, hms := "10:00:01" }
        { files := [("2026-01-02.log", "")], writer := some "2026-01-02.log",
          current_date := some ⟨2026, 1, 2⟩, segment_number := 0,
          last_write_time := some 0, current_line_empty := true,
          paused := false, header_written := true }).current_line_empty
      = true ∧
    fs_read (write_text { now := 2000, today := ⟨2026, 1, 2⟩, hms := "10:00:02" }
        "a"
        (handle_ctrl_enter { now := 1000, today := ⟨2026, 1, 2⟩, hms := "10:00:01" }
          { files := [("2026-01-02.log", "")], writer := some "2026-01-02.log",
            current_date := some ⟨2026, 1, 2⟩, segment_number := 0,
            last_write_time := some 0, current_line_empty := true,
            paused := false, header_written := true })).files
      "2026-01-02.log" = some "\n          [10:00:02] a" := by
  exact ⟨by decide, by decide⟩

/-- C5 (amended): `handle_ctrl_enter` (not paused, file open for
today) appends a line break followed by ten spaces of indentation
(the width of the `[HH:MM:SS]` prefix), updates `lastWriteInstant`,
and leaves `lineIsEmpty` **unchanged**.  Hence when the current line
was non-empty, a character written afterwards within the idle timeout
is appended with no new timestamp: line break, indentation, then the
character, as one logical paragraph. -/
theorem C5_ctrl_enter (env : Env) (st : LoggerState) (p : String)
    (hp : st.paused = false) (hw : st.writer = some p)
    (hd : st.current_date = some env.today) :
    handle_ctrl_enter env st =
      { st with files := fs_append st.files p ("\n" ++ "          "),
                last_write_time := some env.now } ∧
    (handle_ctrl_enter env st).current_line_empty = st.current_line_empty ∧
    (∀ (env2 : Env) (c : String), env2.today = env.today →
        st.current_line_empty = false →
        env2.now - env.now ≤ IDLE_TIMEOUT_MS →
        write_text env2 c (handle_ctrl_enter env st) =
          { st with
              files := fs_append st.files p ("\n" ++ "          " ++ c),
              last_write_time := some env2.now }) := by
  obtain ⟨files, wr, cdate, seg, lwt, cle, ps, hwr⟩ := st
  simp only at hp hw hd
  subst hp hw hd
  have he := ensure_file_steady env
    ⟨files, some p, some env.today, seg, lwt, cle, false, hwr⟩ p rfl rfl
  refine ⟨?_, ?_, ?_⟩
  · simp [handle_ctrl_enter, he, append_out, fs_append_append]
  · simp [handle_ctrl_enter, he, append_out]
  · intro env2 c h2 hcle hle
    subst hcle
    have he2 := ensure_file_steady env2
      ⟨fs_append files p "\n          ", some p, some env.today, seg,
        some env.now, false, false, hwr⟩ p (by rw [h2]) rfl
    have hns : ¬env2.now - env.now > IDLE_TIMEOUT_MS := Nat.not_lt.mpr hle
    simp [handle_ctrl_enter, he, append_out, write_text, he2,
      should_add_timestamp, hns, fs_append_append, String.append_assoc]

/-- C5 witness: from a non-empty line, CtrlEnter then `a` 1 s later
produces exactly the paragraph `x`, line break, indentation, `a`. -/
theorem C5_ctrl_enter_witness :
    write_text { now := 2000, today := ⟨2026, 1, 2⟩, hms := "10:00:02" } "a"
        (handle_ctrl_enter { now := 1000, today := ⟨2026, 1, 2⟩, hms := "10:00:01" }
          { files := [("2026-01-02.log", "x")], writer := some "2026-01-02.log",
            current_date := some ⟨2026, 1, 2⟩, segment_number := 0,
            last_write_time := some 0, current_line_empty := false,
            paused := false, header_written := true }) =
      { files := [("2026-01-02.log", "x" ++ ("\n" ++ "          " ++ "a"))],
        writer := some "2026-01-02.log",
        current_date := some ⟨2026, 1, 2⟩, segment_number := 0,
        last_write_time := some 2000, current_line_empty := false,
        paused := false, header_written := true } := by
  have h := (C5_ctrl_enter { now := 1000, today := ⟨2026, 1, 2⟩, hms := "10:00:01" }
    { files := [("2026-01-02.log", "x")], writer := some "2026-01-02.log",
      current_date := some ⟨2026, 1, 2⟩, segment_number := 0,
      last_write_time := some 0, current_line_empty := false,
      paused := false, header_written := true }
    "2026-01-02.log" rfl rfl rfl).2.2
    { now := 2000, today := ⟨2026, 1, 2⟩, hms := "10:00:02" } "a" rfl rfl
    (by decide)
  rw [h]
  decide

/-- C6: `write_paste` / `write_manual_save` (not paused, file open for
today) start on a fresh line — a line break is emitted first iff the
current line is non-empty — then append the single record
`[HH:MM:SS] [<kind>] <content>` followed by a line break, with the
clipboard text verbatim (even when it contains line breaks), set
`lineIsEmpty` true and update `lastWriteInstant`. -/
theorem C6_paste_manual_save (env : Env) (content : String)
    (st : LoggerState) (p : String) (hp : st.paused = false)
    (hw : st.writer = some p) (hd : st.current_date = some env.today) :
    write_paste env content st =
      { st with
          files := fs_append st.files p
            (if st.current_line_empty then
               "[" ++ env.hms ++ "] [粘贴] " ++ content ++ "\n"
             else "\n" ++ ("[" ++ env.hms ++ "] [粘贴] " ++ content ++ "\n")),
          current_line_empty := true, last_write_time := some env.now } ∧
    write_manual_save env content st =
      { st with
          files := fs_append st.files p
            (if st.current_line_empty then
               "[" ++ env.hms ++ "] [手动保存] " ++ content ++ "\n"
             else
               "\n" ++ ("[" ++ env.hms ++ "] [手动保存] " ++ content ++ "\n")),
          current_line_empty := true, last_write_time := some env.now } := by
  obtain ⟨files, wr, cdate, seg, lwt, cle, ps, hwr⟩ := st
  simp only at hp hw hd
  subst hp hw hd
  have he := ensure_file_steady env
    ⟨files, some p, some env.today, seg, lwt, cle, false, hwr⟩ p rfl rfl
  cases cle <;>
    simp [write_paste, write_manual_save, he, append_out, fs_append_append]

/-- C6 witness: with a non-empty line and clipboard content containing
a line break, the paste record is appended after a fresh line break,
verbatim. -/
theorem C6_paste_manual_save_witness :
    write_paste { now := 2000, today := ⟨2026, 1, 2⟩, hms := "10:00:02" }
        "a\nb"
        { files := [("2026-01-02.log", "x")], writer := some "2026-01-02.log",
          current_date := some ⟨2026, 1, 2⟩, segment_number := 0,
          last_write_time := some 0, current_line_empty := false,
          paused := false, header_written := true } =
      { files := [("2026-01-02.log",
          "x" ++ ("\n" ++ ("[" ++ "10:00:02" ++ "] [粘贴] " ++ "a\nb" ++ "\n")))],
        writer := some "2026-01-02.log",
        current_date := some ⟨2026, 1, 2⟩, segment_number := 0,
        last_write_time := some 2000, current_line_empty := true,
        paused := false, header_written := true } := by
  have h := (C6_paste_manual_save
    { now := 2000, today := ⟨2026, 1, 2⟩, hms := "10:00:02" } "a\nb"
    { files := [("2026-01-02.log", "x")], writer := some "2026-01-02.log",
      current_date := some ⟨2026, 1, 2⟩, segment_number := 0,
      last_write_time := some 0, current_line_empty := false,
      paused := false, header_written := true }
    "2026-01-02.log" rfl rfl rfl).1
  rw [h]
  decide

/-- The two-digit pad produces exactly two characters below 100. -/
theorem pad2_length_two (k : Nat) (hk : k < 100) : (pad2 k).length = 2 := by
  revert hk
  revert k
  decide

/-- Segment 0's filename differs from any padded-suffix filename
(their lengths differ). -/
theorem get_log_path_zero_ne (d : Date) (k : Nat) (h : k ≠ 0)
    (hk : (pad2 k).length = 2) : get_log_path 0 d ≠ get_log_path k d := by
  intro heq
  have hlen := congrArg String.length heq
  have l1 : (".log" : String).length = 4 := rfl
  have l2 : ("_" : String).length = 1 := rfl
  rw [show get_log_path 0 d = format_date d ++ ".log" by simp [get_log_path],
    show get_log_path k d = format_date d ++ "_" ++ pad2 k ++ ".log" by
      simp [get_log_path, h]] at hlen
  rw [string_length_append, string_length_append, string_length_append,
    string_length_append, l1, l2, hk] at hlen
  omega

/-- Segments 1 and 2 have distinct filenames. -/
theorem get_log_path_one_ne_two (d : Date) :
    get_log_path 1 d ≠ get_log_path 2 d := by
  intro heq
  have hp1 : pad2 1 = "01" := rfl
  have hp2 : pad2 2 = "02" := rfl
  simp only [get_log_path, hp1, hp2, String.append_assoc] at heq
  have h3 := string_append_left_cancel _ _ _ heq
  exact absurd h3 (by decide)

/-- Field- and file-level characterisation of `new_segment`. -/
theorem new_segment_spec (env : Env) (st : LoggerState) (d : Date)
    (hd : st.current_date = some d) :
    (new_segment env st).segment_number = st.segment_number + 1 ∧
    (new_segment env st).current_date = some d ∧
    (new_segment env st).header_written = true ∧
    (new_segment env st).paused = st.paused ∧
    (new_segment env st).writer =
      some (get_log_path (st.segment_number + 1) d) ∧
    ((fs_read st.files (get_log_path (st.segment_number + 1) d)).getD "" = "" →
        fs_read (new_segment env st).files
            (get_log_path (st.segment_number + 1) d) =
          some (write_header_block env)) ∧
    (∀ s, fs_read st.files (get_log_path (st.segment_number + 1) d) = some s →
        s ≠ "" →
        fs_read (new_segment env st).files
            (get_log_path (st.segment_number + 1) d) = some s) ∧
    (∀ q, q ≠ get_log_path (st.segment_number + 1) d →
        fs_read (new_segment env st).files q = fs_read st.files q) := by
  have h1 := open_or_create_file_spec env
    { st with writer := none, segment_number := st.segment_number + 1,
              header_written := false } d hd rfl
  exact ⟨h1.2.1, h1.2.2.1, h1.2.2.2.2.1, h1.2.2.2.1, h1.1,
    h1.2.2.2.2.2.2.2.1, h1.2.2.2.2.2.2.2.2.1, h1.2.2.2.2.2.2.2.2.2⟩

/-- C7: `new_segment` closes the current file, increments the segment
number, clears and re-establishes `header_written`, and opens the next
segment file for the current date; the header block is written into
the newly opened file iff that file was absent or empty at open, and a
pre-existing non-empty file is left untouched.  Applied twice from
segment 0 it visits three pairwise-distinct filenames (segments 0, 1,
2). -/
theorem C7_new_segment (env env2 : Env) (st : LoggerState) (d : Date)
    (hd : st.current_date = some d) :
    (new_segment env st).segment_number = st.segment_number + 1 ∧
    (new_segment env st).current_date = some d ∧
    (new_segment env st).header_written = true ∧
    (new_segment env st).writer =
      some (get_log_path (st.segment_number + 1) d) ∧
    ((fs_read st.files (get_log_path (st.segment_number + 1) d)).getD "" = "" →
        fs_read (new_segment env st).files
            (get_log_path (st.segment_number + 1) d) =
          some (write_header_block env)) ∧
    (∀ s, fs_read st.files (get_log_path (st.segment_number + 1) d) = some s →
        s ≠ "" →
        fs_read (new_segment env st).files
            (get_log_path (st.segment_number + 1) d) = some s) ∧
    (∀ q, q ≠ get_log_path (st.segment_number + 1) d →
        fs_read (new_segment env st).files q = fs_read st.files q) ∧
    (st.segment_number = 0 →
        (new_segment env2 (new_segment env st)).segment_number = 2 ∧
        (new_segment env2 (new_segment env st)).writer =
          some (get_log_path 2 d) ∧
        get_log_path 0 d ≠ get_log_path 1 d ∧
        get_log_path 0 d ≠ get_log_path 2 d ∧
        get_log_path 1 d ≠ get_log_path 2 d) := by
  have h1 := new_segment_spec env st d hd
  refine ⟨h1.1, h1.2.1, h1.2.2.1, h1.2.2.2.2.1, h1.2.2.2.2.2.1,
    h1.2.2.2.2.2.2.1, h1.2.2.2.2.2.2.2, ?_⟩
  intro hseg
  have h2 := new_segment_spec env2 (new_segment env st) d h1.2.1
  refine ⟨?_, ?_, get_log_path_zero_ne d 1 (by omega) rfl,
    get_log_path_zero_ne d 2 (by omega) rfl, get_log_path_one_ne_two d⟩
  · rw [h2.1, h1.1, hseg]
  · have hb := h2.2.2.2.2.1
    rw [h1.1, hseg] at hb
    simpa using hb

/-- C7 witness: from a fresh state for 2026-01-02 at segment 0, two
`new_segment` calls produce segment numbers 1 then 2, open
`2026-01-02_01.log` then `2026-01-02_02.log`, each freshly headered,
and the three segment filenames are pairwise distinct. -/
theorem C7_new_segment_witness :
    (new_segment { now := 1, today := ⟨2026, 1, 2⟩, hms := "10:00:01" }
        { files := [], writer := some "2026-01-02.log",
          current_date := some ⟨2026, 1, 2⟩, segment_number := 0,
          last_write_time := none, current_line_empty := true,
          paused := false, header_written := true }).segment_number = 1 ∧
    (new_segment { now := 2, today := ⟨2026, 1, 2⟩, hms := "10:00:02" }
        (new_segment { now := 1, today := ⟨2026, 1, 2⟩, hms := "10:00:01" }
          { files := [], writer := some "2026-01-02.log",
            current_date := some ⟨2026, 1, 2⟩, segment_number := 0,
            last_write_time := none, current_line_empty := true,
            paused := false, header_written := true })).segment_number = 2 ∧
    get_log_path 0 ⟨2026, 1, 2⟩ ≠ get_log_path 1 ⟨2026, 1, 2⟩ ∧
    get_log_path 1 ⟨2026, 1, 2⟩ ≠ get_log_path 2 ⟨2026, 1, 2⟩ := by
  have h := C7_new_segment { now := 1, today := ⟨2026, 1, 2⟩, hms := "10:00:01" }
    { now := 2, today := ⟨2026, 1, 2⟩, hms := "10:00:02" }
    { files := [], writer := some "2026-01-02.log",
      current_date := some ⟨2026, 1, 2⟩, segment_number := 0,
      last_write_time := none, current_line_empty := true,
      paused := false, header_written := true } ⟨2026, 1, 2⟩ rfl
  exact ⟨h.1, (h.2.2.2.2.2.2.2 rfl).1, (h.2.2.2.2.2.2.2 rfl).2.2.1,
    (h.2.2.2.2.2.2.2 rfl).2.2.2.2⟩

/-- C8: the active file is selected by `(date, segmentNumber)`:
`{YYYY-MM-DD}.log` for segment 0 and `{YYYY-MM-DD}_{NN}.log` with a
two-digit suffix for positive segments; and a lazily detected date
change resets the segment number to 0, clears `header_written` before
reopening, closes the old writer and opens the new date's segment-0
file (writing the header block when that file is absent or empty). -/
theorem C8_rotation (env : Env) (st : LoggerState) (d : Date) (seg : Nat)
    (hseg : seg ≠ 0) (hne : st.current_date ≠ some env.today) :
    get_log_path 0 d = format_date d ++ ".log" ∧
    get_log_path seg d = format_date d ++ "_" ++ pad2 seg ++ ".log" ∧
    (seg < 100 → (pad2 seg).length = 2) ∧
    (ensure_file env st).current_date = some env.today ∧
    (ensure_file env st).segment_number = 0 ∧
    (ensure_file env st).writer = some (get_log_path 0 env.today) ∧
    ((fs_read st.files (get_log_path 0 env.today)).getD "" = "" →
        fs_read (ensure_file env st).files (get_log_path 0 env.today) =
          some (write_header_block env)) := by
  have hef : ensure_file env st =
      open_or_create_file env
        { st with current_date := some env.today, segment_number := 0,
                  header_written := false, writer := none } := by
    simp [ensure_file, hne]
  have h := open_or_create_file_spec env
    { st with current_date := some env.today, segment_number := 0,
              header_written := false, writer := none } env.today rfl rfl
  rw [hef]
  exact ⟨by simp [get_log_path], by simp [get_log_path, hseg],
    fun hk => pad2_length_two seg hk, h.2.2.1, h.2.1, h.1,
    h.2.2.2.2.2.2.2.1⟩

/-- C8 witness: a state still on 2026-01-02 written on 2026-01-03
rotates to `2026-01-03.log`, segment 0, and headers the fresh file. -/
theorem C8_rotation_witness :
    get_log_path 3 ⟨2026, 1, 3⟩ = "2026-01-03_03.log" ∧
    (ensure_file { now := 9, today := ⟨2026, 1, 3⟩, hms := "00:00:09" }
        { files := [("2026-01-02.log", "old")],
          writer := some "2026-01-02.log",
          current_date := some ⟨2026, 1, 2⟩, segment_number := 5,
          last_write_time := some 0, current_line_empty := false,
          paused := false, header_written := true }).writer =
      some (get_log_path 0 ⟨2026, 1, 3⟩) ∧
    (ensure_file { now := 9, today := ⟨2026, 1, 3⟩, hms := "00:00:09" }
        { files := [("2026-01-02.log", "old")],
          writer := some "2026-01-02.log",
          current_date := some ⟨2026, 1, 2⟩, segment_number := 5,
          last_write_time := some 0, current_line_empty := false,
          paused := false, header_written := true }).segment_number = 0 := by
  have h := C8_rotation { now := 9, today := ⟨2026, 1, 3⟩, hms := "00:00:09" }
    { files := [("2026-01-02.log", "old")], writer := some "2026-01-02.log",
      current_date := some ⟨2026, 1, 2⟩, segment_number := 5,
      last_write_time := some 0, current_line_empty := false,
      paused := false, header_written := true } ⟨2026, 1, 3⟩ 3
    (by decide) (by decide)
  exact ⟨by rw [h.2.1]; decide, h.2.2.2.2.2.1, h.2.2.2.2.1⟩

/-- C10 (implicit): `Logger::new_segment` is not gated by the paused
flag — invoked on a paused logger (as the tray menu does) it still
increments the segment number, opens the next segment file for the
current date (headering it when absent or empty), and leaves the
paused flag set. -/
theorem C10_new_segment_while_paused (env : Env) (st : LoggerState) (d : Date)
    (h : st.paused = true) (hd : st.current_date = some d) :
    (new_segment env st).paused = true ∧
    (new_segment env st).segment_number = st.segment_number + 1 ∧
    (new_segment env st).writer =
      some (get_log_path (st.segment_number + 1) d) ∧
    (new_segment env st).header_written = true ∧
    ((fs_read st.files (get_log_path (st.segment_number + 1) d)).getD "" = "" →
        fs_read (new_segment env st).files
            (get_log_path (st.segment_number + 1) d) =
          some (write_header_block env)) := by
  have h1 := new_segment_spec env st d hd
  exact ⟨by rw [h1.2.2.2.1, h], h1.1, h1.2.2.2.2.1, h1.2.2.1,
    h1.2.2.2.2.2.1⟩

/-- C10 witness: a paused logger at segment 0 still rotates to
segment 1 and stays paused. -/
theorem C10_new_segment_while_paused_witness :
    (new_segment { now := 1, today := ⟨2026, 1, 2⟩, hms := "10:00:01" }
        { files := [], writer := some "2026-01-02.log",
          current_date := some ⟨2026, 1, 2⟩, segment_number := 0,
          last_write_time := none, current_line_empty := true,
          paused := true, header_written := true }).paused = true ∧
    (new_segment { now := 1, today := ⟨2026, 1, 2⟩, hms := "10:00:01" }
        { files := [], writer := some "2026-01-02.log",
          current_date := some ⟨2026, 1, 2⟩, segment_number := 0,
          last_write_time := none, current_line_empty := true,
          paused := true, header_written := true }).segment_number = 1 := by
  have h := C10_new_segment_while_paused
    { now := 1, today := ⟨2026, 1, 2⟩, hms := "10:00:01" }
    { files := [], writer := some "2026-01-02.log",
      current_date := some ⟨2026, 1, 2⟩, segment_number := 0,
      last_write_time := none, current_line_empty := true,
      paused := true, header_written := true } ⟨2026, 1, 2⟩ rfl rfl
  exact ⟨h.1, h.2.1⟩

end EchoKey
